import Mathlib

/-!
Shallow embedding of the decision fabric of the hybrid RAG system
(`src/hybrid_rag/core/hybrid_rag.py`, `src/hybrid_rag/core/models.py`,
`src/hybrid_rag/core/config.py`, `src/hybrid_rag/routing/router.py`,
`src/hybrid_rag/routing/classifier.py`).

Modelling conventions:
* Python floats are modelled as `ℚ` (the programme only ever compares and
  multiplies small decimal constants).
* Async functions are pure: every awaited collaborator call is replaced by an
  explicit input.  The two pipeline backends (`classic_rag.pipeline` and
  `agents.orchestrator`, not part of the routing/core sources) are modelled as
  an environment containing, for each pipeline, the outcome of awaiting it:
  either a raised exception (`Except.error msg`) or the returned result dict.
* `re.search` over the classifier's pattern sets is plain substring search:
  every pattern in `simple_patterns` / `complex_patterns` is a literal string
  with no regex metacharacters.  `re.search(r"\d+\.", q)` succeeds exactly
  when some digit character is immediately followed by a full stop.
* `QueryClassifier.classify` lower-cases the query before handing it to
  `_heuristic_classify`; the embedding of `_heuristic_classify` takes the
  (already lower-cased) query text, as in the source.
* Wall-clock latency fields, logging, metric emission and the cache write-back
  (`_save_to_cache`) are side effects with no influence on the returned
  `QueryResult` and are not modelled.
-/

namespace HybridRag

/-- Embeds `QueryComplexity` enum from `core/models.py`. -/
inductive QueryComplexity : Type where
  | simple
  | moderate
  | complex
  | multi_hop
deriving DecidableEq, Repr

/-- Embeds `RoutingStrategy` enum from `core/models.py`. -/
inductive RoutingStrategy : Type where
  | classic_rag
  | agentic_rag
  | hybrid
  | cache
deriving DecidableEq, Repr

/-- The `.value` string of a `RoutingStrategy` member. -/
def RoutingStrategy.value : RoutingStrategy → String
  | .classic_rag => "classic_rag"
  | .agentic_rag => "agentic_rag"
  | .hybrid => "hybrid"
  | .cache => "cache"

/-- The `.value` string of a `QueryComplexity` member. -/
def QueryComplexity.value : QueryComplexity → String
  | .simple => "simple"
  | .moderate => "moderate"
  | .complex => "complex"
  | .multi_hop => "multi_hop"

/-- The routing-relevant fields of `Settings` (`core/config.py`, lines 67-70).
Defaults: `complexity_threshold_simple = 0.3`,
`complexity_threshold_complex = 0.7`. -/
structure Settings : Type where
  complexity_threshold_simple : ℚ := 3/10
  complexity_threshold_complex : ℚ := 7/10
deriving DecidableEq, Repr

/-- Tests whether the first list is a prefix of the second
(auxiliary for substring search). -/
def prefixOfL : List Char → List Char → Bool
  | [], _ => true
  | _ :: _, [] => false
  | a :: as, b :: bs => a == b && prefixOfL as bs

/-- Tests whether `p` occurs as a contiguous sublist of the second argument. -/
def subListOf (p : List Char) : List Char → Bool
  | [] => prefixOfL p []
  | c :: rest => prefixOfL p (c :: rest) || subListOf p rest

/-- Python `pattern in query` / `re.search(pattern, query)` for the literal
patterns of the classifier: substring containment. -/
def containsSub (query pat : String) : Bool :=
  subListOf pat.toList query.toList

/-- Some pattern of the list occurs in the query. -/
def matchesAny (pats : List String) (query : String) : Bool :=
  pats.any (fun p => containsSub query p)

/-- Number of maximal whitespace-free runs; the Boolean argument records
whether the previous character was inside a word. -/
def wordsFrom : List Char → Bool → Nat
  | [], _ => 0
  | c :: rest, inWord =>
    if c.isWhitespace then wordsFrom rest false
    else (if inWord then 0 else 1) + wordsFrom rest true

/-- Python `len(query.split())`: split on whitespace runs, drop empties. -/
def wordCount (query : String) : Nat :=
  wordsFrom query.toList false

/-- Python `query.count(c)` for a single character. -/
def countChar (query : String) (c : Char) : Nat :=
  (query.toList.filter (fun x => x = c)).length

/-- Embeds `re.search(r"\d+\.", query)`: some digit immediately followed by `.`. -/
def digitDot : List Char → Bool
  | c₁ :: c₂ :: rest => (c₁.isDigit && c₂ == '.') || digitDot (c₂ :: rest)
  | _ => false

/-- Embeds `has_enumeration` feature of `_heuristic_classify`. -/
def hasEnumeration (query : String) : Bool :=
  digitDot query.toList

/-- Embeds `QueryClassifier.simple_patterns` (`routing/classifier.py`, lines 27-36). -/
def simplePatterns : List String :=
  ["что такое", "кто такой", "когда", "где находится",
   "какая столица", "дай определение", "назови", "перечисли"]

/-- Embeds `QueryClassifier.complex_patterns` (`routing/classifier.py`, lines 38-47). -/
def complexPatterns : List String :=
  ["проанализируй", "сравни", "оцени влияние", "найди все",
   "исследуй", "определи взаимосвязь", "сделай прогноз", "разработай стратегию"]

/-- Embeds `QueryClassifier.multi_hop_keywords` (`routing/classifier.py`, lines 49-52). -/
def multiHopKeywords : List String :=
  ["и", "а также", "кроме того", "учитывая",
   "на основе", "исходя из", "в контексте"]

/-- Embeds `multi_hop_count`: how many multi-hop keywords occur in the query
(`sum(1 for keyword in self.multi_hop_keywords if keyword in query)`). -/
def multiHopCount (query : String) : Nat :=
  (multiHopKeywords.filter (fun k => containsSub query k)).length

/-- Classification outcome: the `complexity` and `confidence` entries of the
dict returned by `_heuristic_classify` (the `features` entry is diagnostic
only and is not modelled). -/
structure Classification : Type where
  complexity : QueryComplexity
  confidence : ℚ
deriving DecidableEq, Repr

/-- Embeds `QueryClassifier._heuristic_classify` (`routing/classifier.py`,
lines 74-159), mirroring the source's control flow: early return on a simple
pattern, early return on a complex pattern (with the multi-hop keyword count
deciding `multi_hop` vs `complex`), otherwise word-count buckets followed by
the two sequential adjustments (question marks, then enumeration). -/
def heuristicClassify (query : String) : Classification :=
  if matchesAny simplePatterns query then
    ⟨.simple, 17/20⟩
  else if matchesAny complexPatterns query then
    ⟨if 2 ≤ multiHopCount query then .multi_hop else .complex, 3/4⟩
  else
    let wc := wordCount query
    let base : QueryComplexity × ℚ :=
      if wc < 10 then (.simple, 7/10)
      else if wc < 30 then (.moderate, 3/5)
      else if wc < 50 then (.complex, 3/5)
      else (.multi_hop, 7/10)
    let afterQ : QueryComplexity × ℚ :=
      if countChar query '?' > 1 then (.multi_hop, base.2 * (9/10)) else base
    let afterE : QueryComplexity × ℚ :=
      if hasEnumeration query then
        ((if afterQ.1 = .simple then .moderate else afterQ.1), afterQ.2 * (19/20))
      else afterQ
    ⟨afterE.1, afterE.2⟩

/-- Word-count buckets of the spec's reference definition of heuristic
classification: `< 10 → simple 0.7; < 30 → moderate 0.6; < 50 → complex 0.6;
else multi_hop 0.7`. -/
def refWordBucket (wc : Nat) : Classification :=
  if wc < 10 then ⟨.simple, 7/10⟩
  else if wc < 30 then ⟨.moderate, 3/5⟩
  else if wc < 50 then ⟨.complex, 3/5⟩
  else ⟨.multi_hop, 7/10⟩

/-- Reference adjustment: more than one `?` forces `multi_hop` and scales
confidence by 0.9. -/
def refQuestionAdjust (query : String) (c : Classification) : Classification :=
  if countChar query '?' > 1 then ⟨.multi_hop, c.confidence * (9/10)⟩ else c

/-- Reference adjustment: an enumerated list promotes `simple` to `moderate`
and scales confidence by 0.95. -/
def refEnumAdjust (query : String) (c : Classification) : Classification :=
  if hasEnumeration query then
    ⟨if c.complexity = .simple then .moderate else c.complexity,
     c.confidence * (19/20)⟩
  else c

/-- The spec's reference definition of heuristic classification, assembled
from its sentences: simple patterns first (0.85), then complex patterns
(`multi_hop` 0.75 when at least two multi-hop keywords occur, `complex` 0.75
otherwise), then the word-count buckets followed by the question-mark and
enumeration adjustments in that order. -/
def heuristicClassifyRef (query : String) : Classification :=
  if matchesAny simplePatterns query then
    ⟨.simple, 17/20⟩
  else if matchesAny complexPatterns query then
    (if 2 ≤ multiHopCount query then ⟨.multi_hop, 3/4⟩ else ⟨.complex, 3/4⟩)
  else
    refEnumAdjust query (refQuestionAdjust query (refWordBucket (wordCount query)))

/-- The fields of `QueryMetadata` (`core/models.py`) that the routing core
reads or writes (the `entities` / `keywords` / `embedding` / `timestamp`
fields are filled with constants or `None` by `_analyze_query` and never
influence routing or execution). -/
structure QueryMetadata : Type where
  query_id : String
  original_query : String
  language : String
  complexity : QueryComplexity
  complexity_score : ℚ
  intent : String
deriving DecidableEq, Repr

/-- The complexity score of `HybridRAG._analyze_query`
(`core/hybrid_rag.py`, lines 182-184): `min(1.0, len(query.split()) / 50.0)`. -/
def complexityScore (query : String) : ℚ :=
  min 1 ((wordCount query : ℚ) / 50)

/-- The complexity bucket of `HybridRAG._analyze_query`
(`core/hybrid_rag.py`, lines 186-193): hard-coded cut points 0.3 / 0.6 / 0.8
(the configured `complexity_threshold_simple` / `complexity_threshold_complex`
are not consulted). -/
def analyzeComplexity (query : String) : QueryComplexity :=
  let s := complexityScore query
  if s < 3/10 then .simple
  else if s < 3/5 then .moderate
  else if s < 4/5 then .complex
  else .multi_hop

/-- Embeds `HybridRAG._analyze_query` (`core/hybrid_rag.py`, lines 161-206). -/
def analyzeQuery (query queryId : String) : QueryMetadata :=
  { query_id := queryId
    original_query := query
    language := "ru"
    complexity := analyzeComplexity query
    complexity_score := complexityScore query
    intent := "general" }

/-- Python `str.lower()` restricted to the ASCII mapping of `Char.toLower`;
the classifier's Cyrillic patterns are already lower case, and no theorem in
this development depends on non-ASCII case folding. -/
def lowerStr (s : String) : String :=
  s.map Char.toLower

/-- Embeds `QueryClassifier.classify` (`routing/classifier.py`, lines 56-72): the
model is `None`, so classification always lower-cases the query and applies
the heuristic. -/
def classify (m : QueryMetadata) : Classification :=
  heuristicClassify (lowerStr m.original_query)

/-- Embeds `IntelligentRouter._determine_strategy` (`routing/router.py`,
lines 88-118), including the unreachable default `hybrid` branch. -/
def determineStrategy (complexity : QueryComplexity) (confidence : ℚ) :
    RoutingStrategy :=
  if complexity = .simple then .classic_rag
  else if complexity = .complex ∨ complexity = .multi_hop then .agentic_rag
  else if complexity = .moderate then
    (if confidence > 7/10 then .classic_rag else .hybrid)
  else .hybrid

/-- Embeds `IntelligentRouter._get_fallback_strategies` (`routing/router.py`,
lines 120-148); the `else` branch covers `cache`. -/
def getFallbackStrategies : RoutingStrategy → List RoutingStrategy
  | .agentic_rag => [.hybrid, .classic_rag]
  | .hybrid => [.classic_rag, .agentic_rag]
  | .classic_rag => [.hybrid, .agentic_rag]
  | .cache => [.classic_rag]

/-- Embeds `IntelligentRouter._estimate_time` (`routing/router.py`, lines 150-185):
`int(base_time * multiplier)` with per-strategy base times and per-complexity
multipliers. -/
def estimateTime (strategy : RoutingStrategy) (m : QueryMetadata) : ℤ :=
  let baseTime : ℚ :=
    match strategy with
    | .classic_rag => 200
    | .agentic_rag => 2000
    | .hybrid => 1500
    | .cache => 10
  let multiplier : ℚ :=
    match m.complexity with
    | .simple => 1/2
    | .moderate => 1
    | .complex => 2
    | .multi_hop => 3
  Rat.floor (baseTime * multiplier)

/-- Embeds `IntelligentRouter._estimate_cost` (`routing/router.py`, lines 187-214):
per-strategy base cost scaled by `1 + len(query) / 1000`. -/
def estimateCost (strategy : RoutingStrategy) (m : QueryMetadata) : ℚ :=
  let baseCost : ℚ :=
    match strategy with
    | .classic_rag => 1/1000
    | .agentic_rag => 1/100
    | .hybrid => 5/1000
    | .cache => 0
  baseCost * (1 + (m.original_query.length : ℚ) / 1000)

/-- Embeds `IntelligentRouter._generate_reasoning` (`routing/router.py`,
lines 236-277): only the `classic` template interpolates a placeholder. -/
def generateReasoning (strategy : RoutingStrategy) (m : QueryMetadata) :
    String :=
  match strategy with
  | .classic_rag =>
      "Запрос классифицирован как " ++ m.complexity.value ++ " сложности. " ++
      "Использование Classic RAG для быстрого поиска ответа."
  | .agentic_rag =>
      "Запрос требует сложного анализа и многоэтапной обработки. " ++
      "Использование Agentic RAG для глубокого исследования."
  | .hybrid =>
      "Запрос средней сложности требует сбалансированного подхода. " ++
      "Использование гибридной стратегии для оптимального результата."
  | .cache =>
      "Найден похожий запрос в кэше. " ++
      "Использование закэшированного результата для мгновенного ответа."

/-- Embeds `RoutingDecision` from `core/models.py`. -/
structure RoutingDecision : Type where
  strategy : RoutingStrategy
  confidence : ℚ
  reasoning : String
  fallback_strategies : List RoutingStrategy
  estimated_time_ms : ℤ
  estimated_cost_usd : ℚ
  cache_hit : Bool := false
deriving DecidableEq, Repr

/-- Embeds `IntelligentRouter.route` (`routing/router.py`, lines 40-86).
`_check_resource_availability` is the identity (its body is a TODO that
returns its argument unchanged).  Note that the strategy is determined from
`query_metadata.complexity` (the analyzer's bucket) and the classifier's
confidence; the classifier's own complexity is ignored here. -/
def route (m : QueryMetadata) : RoutingDecision :=
  let cl := classify m
  let strategy := determineStrategy m.complexity cl.confidence
  { strategy := strategy
    confidence := cl.confidence
    reasoning := generateReasoning strategy m
    fallback_strategies := getFallbackStrategies strategy
    estimated_time_ms := estimateTime strategy m
    estimated_cost_usd := estimateCost strategy m
    cache_hit := false }

/-- Embeds `HybridRAG._route_query` (`core/hybrid_rag.py`, lines 236-260): a forced
strategy short-circuits the router with a fixed decision whose fallback list
is empty. -/
def routeQuery (m : QueryMetadata) :
    Option RoutingStrategy → RoutingDecision
  | some f =>
      { strategy := f
        confidence := 1
        reasoning := "Принудительная стратегия"
        fallback_strategies := []
        estimated_time_ms := 1000
        estimated_cost_usd := 1/1000
        cache_hit := false }
  | none => route m

/-- Embeds `QueryResult` from `core/models.py`, restricted to the fields the routing
core assigns or the claims mention.  `latency_ms` (wall-clock time),
`documents_retrieved`, `agents_used`, `agent_results`, `reasoning_chain`,
`metadata` and `timestamp` are carried through unchanged by every code path
modelled here and are omitted. -/
structure QueryResult : Type where
  query_id : String
  answer : String
  strategy_used : RoutingStrategy
  confidence_score : ℚ
  relevance_score : ℚ
  tokens_used : ℕ
  cost_usd : ℚ
  execution_path : List String
  cached : Bool
  fallback_used : Bool
  error : Option String
deriving DecidableEq, Repr

/-- The result dict returned by a pipeline backend
(`classic_rag.process` / `agent_orchestrator.orchestrate`; these modules are
outside the routing/core sources).  `Option` fields model keys the dict may
lack, read back with `result.get(key, default)`; `answer` is accessed with
`result["answer"]` and is mandatory. -/
structure ProcDict : Type where
  answer : String
  confidence : Option ℚ := none
  relevance : Option ℚ := none
  tokens_used : Option ℕ := none
  cost : Option ℚ := none
  execution_path : Option (List String) := none
deriving DecidableEq, Repr

/-- Outcome of awaiting one pipeline backend: either its result dict or the
message of the exception it raised. -/
abbrev PipelineOutcome := Except String ProcDict

/-- The environment of `HybridRAG._execute_query`: the outcome each pipeline
backend would produce for the current query. -/
structure PipelineEnv : Type where
  classic : PipelineOutcome
  agentic : PipelineOutcome
deriving Repr

/-- Embeds `HybridRAG._execute_classic_rag` (`core/hybrid_rag.py`, lines 287-322),
given the dict returned by `classic_rag.process`. -/
def execClassic (m : QueryMetadata) (r : ProcDict) : QueryResult :=
  { query_id := m.query_id
    answer := r.answer
    strategy_used := .classic_rag
    confidence_score := r.confidence.getD (4/5)
    relevance_score := r.relevance.getD (4/5)
    tokens_used := r.tokens_used.getD 0
    cost_usd := r.cost.getD (1/1000)
    execution_path := ["classic_rag"]
    cached := false
    fallback_used := false
    error := none }

/-- Embeds `HybridRAG._execute_agentic_rag` (`core/hybrid_rag.py`, lines 324-359),
given the dict returned by `agent_orchestrator.orchestrate`. -/
def execAgentic (m : QueryMetadata) (r : ProcDict) : QueryResult :=
  { query_id := m.query_id
    answer := r.answer
    strategy_used := .agentic_rag
    confidence_score := r.confidence.getD (9/10)
    relevance_score := r.relevance.getD (9/10)
    tokens_used := r.tokens_used.getD 0
    cost_usd := r.cost.getD (1/100)
    execution_path := r.execution_path.getD []
    cached := false
    fallback_used := false
    error := none }

/-- Classic pipeline execution: propagates a raised exception unchanged. -/
def runClassic (env : PipelineEnv) (m : QueryMetadata) :
    Except String QueryResult :=
  env.classic.map (execClassic m)

/-- Agentic pipeline execution: propagates a raised exception unchanged. -/
def runAgentic (env : PipelineEnv) (m : QueryMetadata) :
    Except String QueryResult :=
  env.agentic.map (execAgentic m)

/-- The join of `HybridRAG._execute_hybrid` (`core/hybrid_rag.py`,
lines 361-393): `asyncio.gather` without `return_exceptions`, so if either
task raised, awaiting the gather re-raises that exception and the other
result is discarded; when exactly one task raised, the propagated exception
is that task's.  (When both raise, the event loop surfaces whichever
exception it observes first; this deterministic model surfaces the classic
one, and no theorem below depends on that choice.)  When both succeed the
more confident result wins — agentic only on strictly greater
`confidence_score` — and `strategy_used` is overwritten with `hybrid`. -/
def mergeHybrid :
    Except String QueryResult → Except String QueryResult →
    Except String QueryResult
  | .ok c, .ok a =>
      .ok { (if a.confidence_score > c.confidence_score then a else c) with
            strategy_used := .hybrid }
  | .error e, _ => .error e
  | _, .error e => .error e

/-- Embeds `HybridRAG._execute_hybrid` as invoked from `_execute_query`. -/
def execHybrid (env : PipelineEnv) (m : QueryMetadata) :
    Except String QueryResult :=
  mergeHybrid (runClassic env m) (runAgentic env m)

/-- Embeds `HybridRAG._execute_query` (`core/hybrid_rag.py`, lines 262-285); the
final `else` raises `ValueError` for the `cache` strategy. -/
def executeQuery (env : PipelineEnv) (m : QueryMetadata)
    (d : RoutingDecision) : Except String QueryResult :=
  match d.strategy with
  | .classic_rag => runClassic env m
  | .agentic_rag => runAgentic env m
  | .hybrid => execHybrid env m
  | .cache => .error "Неизвестная стратегия: RoutingStrategy.CACHE"

/-- Embeds `HybridRAG._create_error_result` (`core/hybrid_rag.py`, lines 439-484):
a fixed apologetic answer, `strategy_used` hard-coded to `classic_rag`,
`fallback_used` hard-coded to `True`, the error message attached. -/
def createErrorResult (queryId : String) (error : String) : QueryResult :=
  { query_id := queryId
    answer := "Извините, произошла ошибка при обработке вашего запроса."
    strategy_used := .classic_rag
    confidence_score := 0
    relevance_score := 0
    tokens_used := 0
    cost_usd := 0
    execution_path := ["error"]
    cached := false
    fallback_used := true
    error := some error }

/-- The route-and-execute tail of `HybridRAG.query`: routing decision,
strategy execution, and the `except` clause that converts a raised exception
into an error result. -/
def queryCore (env : PipelineEnv) (q queryId : String)
    (force : Option RoutingStrategy) : QueryResult :=
  let m := analyzeQuery q queryId
  match executeQuery env m (routeQuery m force) with
  | .ok res => res
  | .error e => createErrorResult queryId e

/-- Embeds `HybridRAG.query` (`core/hybrid_rag.py`, lines 88-159).
`cacheEntry` is what `self.cache.get` would return for this query: the
`QueryResult` reconstructed from the stored dict, or `none` on a miss.  The
cache is consulted only when caching is enabled and no strategy is forced;
on a hit the stored result is returned with `cached` overwritten to `True`
(`_check_cache`, lines 208-234) and nothing else changed.  The write-back
`_save_to_cache` and the `latency_ms` update mutate no field modelled here. -/
def query (cacheEnabled : Bool) (cacheEntry : Option QueryResult)
    (env : PipelineEnv) (q queryId : String)
    (force : Option RoutingStrategy) : QueryResult :=
  if cacheEnabled = true ∧ force = none then
    match cacheEntry with
    | some r => { r with cached := true }
    | none => queryCore env q queryId force
  else queryCore env q queryId force

/-- Embeds `HybridRAG.simple_query` (`core/hybrid_rag.py`, lines 506-524). -/
def simpleQuery (cacheEnabled : Bool) (cacheEntry : Option QueryResult)
    (env : PipelineEnv) (q queryId : String) : QueryResult :=
  query cacheEnabled cacheEntry env q queryId (some .classic_rag)

/-- Embeds `HybridRAG.complex_query` (`core/hybrid_rag.py`, lines 486-504). -/
def complexQuery (cacheEnabled : Bool) (cacheEntry : Option QueryResult)
    (env : PipelineEnv) (q queryId : String) : QueryResult :=
  query cacheEnabled cacheEntry env q queryId (some .agentic_rag)

/-- Pipeline environment in which both backends succeed. -/
def envOk : PipelineEnv :=
  { classic := .ok { answer := "classic answer" }
    agentic := .ok { answer := "agentic answer" } }

/-- Pipeline environment in which the classic backend raises. -/
def envClassicDown : PipelineEnv :=
  { classic := .error "classic boom"
    agentic := .ok { answer := "agentic answer" } }

/-- Pipeline environment in which the agentic backend raises. -/
def envAgenticDown : PipelineEnv :=
  { classic := .ok { answer := "classic answer" }
    agentic := .error "agentic boom" }

/-- A result as the cache stores it: produced by a classic-pipeline run and
serialised with `cached = False`. -/
def storedResult : QueryResult :=
  { query_id := "old-id"
    answer := "42"
    strategy_used := .classic_rag
    confidence_score := 4/5
    relevance_score := 4/5
    tokens_used := 0
    cost_usd := 1/1000
    execution_path := ["classic_rag"]
    cached := false
    fallback_used := false
    error := none }

/-- A pipeline result with confidence 0.5 (for hybrid-merge instances). -/
def resultLow : QueryResult :=
  { storedResult with
    answer := "low"
    confidence_score := 1/2 }

/-- A pipeline result with confidence 0.75 (for hybrid-merge instances). -/
def resultHigh : QueryResult :=
  { storedResult with
    answer := "high"
    confidence_score := 3/4
    strategy_used := .agentic_rag }

/-- A pipeline result tied with `resultLow` on confidence. -/
def resultTie : QueryResult :=
  { resultLow with answer := "tie" }

/-- The default configuration (`Settings()` with no overrides). -/
def defaultSettings : Settings := {}

/-- A configuration raising `complexity_threshold_simple` to 0.5. -/
def customSettings : Settings :=
  { complexity_threshold_simple := 1/2
    complexity_threshold_complex := 7/10 }

/-- A 20-word query text. -/
def q20 : String :=
  "a a a a a a a a a a a a a a a a a a a a"

/-- A 40-word query text. -/
def q40 : String :=
  "a a a a a a a a a a a a a a a a a a a a a a a a a a a a a a a a a a a a a a a a"

/-- The router never selects the `cache` strategy: `_determine_strategy`
only returns `classic_rag`, `agentic_rag` or `hybrid`. -/
lemma determineStrategy_ne_cache (c : QueryComplexity) (conf : ℚ) :
    determineStrategy c conf ≠ .cache := by
  cases c
  case simple => simp [determineStrategy]
  case moderate =>
    by_cases hconf : conf > 7/10 <;> simp [determineStrategy, hconf]
  case complex => simp [determineStrategy]
  case multi_hop => simp [determineStrategy]

/-- Every result a pipeline execution returns has `cached = False`,
`error = None`, and a strategy other than `cache`. -/
lemma executeQuery_ok_fields {env : PipelineEnv} {m : QueryMetadata}
    {d : RoutingDecision} {r : QueryResult}
    (h : executeQuery env m d = .ok r) :
    r.cached = false ∧ r.error = none ∧ r.strategy_used ≠ .cache := by
  rcases env with ⟨ec, ea⟩
  unfold executeQuery at h
  rcases hs : d.strategy <;> rw [hs] at h
  case classic_rag =>
    rcases ec with e | pd <;>
      simp [runClassic, Except.map] at h
    subst h
    simp [execClassic]
  case agentic_rag =>
    rcases ea with e | pd <;>
      simp [runAgentic, Except.map] at h
    subst h
    simp [execAgentic]
  case hybrid =>
    rcases ec with e | pdc <;> rcases ea with e' | pda <;>
      simp [execHybrid, runClassic, runAgentic, mergeHybrid, Except.map] at h
    subst h
    constructor
    · split <;> simp [execClassic, execAgentic]
    constructor
    · split <;> simp [execClassic, execAgentic]
    · simp
  case cache =>
    simp at h

/-- The route-and-execute tail of `query` never returns a result marked
`cached` and never reports the `cache` strategy (the error result reports
`classic_rag`). -/
lemma queryCore_fields (env : PipelineEnv) (q qid : String)
    (force : Option RoutingStrategy) :
    (queryCore env q qid force).cached = false ∧
    (queryCore env q qid force).strategy_used ≠ .cache := by
  unfold queryCore
  rcases h : executeQuery env (analyzeQuery q qid)
      (routeQuery (analyzeQuery q qid) force) with e | r
  · simp [h, createErrorResult]
  · have hf := executeQuery_ok_fields h
    simp [h, hf.1, hf.2.2]

example : heuristicClassify "что такое питон" = ⟨.simple, 17/20⟩ := rfl
example : heuristicClassify "сравни av и bv учитывая cv" = ⟨.multi_hop, 3/4⟩ := rfl
example : heuristicClassify "a b" = ⟨.simple, 7/10⟩ := rfl

/-- When both pipeline backends succeed, `_execute_query` returns a
successful result (for any non-`cache` strategy) whose `error` field is
`None`. -/
lemma executeQuery_both_ok {env : PipelineEnv} (m : QueryMetadata)
    {dc da : ProcDict} (hc : env.classic = .ok dc) (ha : env.agentic = .ok da)
    (d : RoutingDecision) (hd : d.strategy ≠ .cache) :
    ∃ r, executeQuery env m d = .ok r ∧ r.error = none := by
  unfold executeQuery
  rcases hs : d.strategy
  case classic_rag =>
    refine ⟨execClassic m dc, ?_, rfl⟩
    simp [runClassic, hc, Except.map]
  case agentic_rag =>
    refine ⟨execAgentic m da, ?_, rfl⟩
    simp [runAgentic, ha, Except.map]
  case hybrid =>
    simp only [execHybrid, runClassic, runAgentic, hc, ha, Except.map,
      mergeHybrid]
    refine ⟨_, rfl, ?_⟩
    split <;> rfl
  case cache => exact absurd hs hd

/-- C1 counterexample: with a stored classic-strategy entry in the cache, the
cache-hit result has `cached = true` yet `strategy_used = classic_rag`,
not `cache` — refuting "`strategy_used = cache` iff `cached = true`". -/
theorem cache_hit_keeps_stored_strategy :
    (query true (some storedResult) envOk "q" "id" none).cached = true ∧
    (query true (some storedResult) envOk "q" "id" none).strategy_used
      = .classic_rag ∧
    (query true (some storedResult) envOk "q" "id" none).strategy_used
      ≠ .cache := by
  refine ⟨?_, ?_, ?_⟩ <;> simp [query, storedResult]

/-- C1 (amended): `strategy_used` is never `cache` — a cache hit returns the
stored entry's own strategy unchanged — and `cached = true` holds exactly on
the cache-hit path (caching enabled, no forced strategy, entry present),
assuming the stored entry does not itself carry the `cache` strategy (every
entry the system writes comes from a pipeline result, whose strategy is
`classic_rag`, `agentic_rag` or `hybrid`). -/
theorem query_cached_iff_cache_hit (ce : Bool) (entry : Option QueryResult)
    (env : PipelineEnv) (q qid : String) (force : Option RoutingStrategy)
    (hentry : ∀ r, entry = some r → r.strategy_used ≠ .cache) :
    (query ce entry env q qid force).strategy_used ≠ .cache ∧
    ((query ce entry env q qid force).cached = true ↔
      (ce = true ∧ force = none ∧ entry ≠ none)) := by
  by_cases h : ce = true ∧ force = none
  · obtain ⟨hce, hforce⟩ := h
    subst hce
    subst hforce
    cases entry with
    | none =>
        have hf := queryCore_fields env q qid none
        constructor
        · simpa [query] using hf.2
        · simp [query, hf.1]
    | some r =>
        constructor
        · simpa [query] using hentry r rfl
        · simp [query]
  · have hf := queryCore_fields env q qid force
    constructor
    · simpa [query, h] using hf.2
    · simp [query, h, hf.1]
      tauto

/-- Witness for C1 (amended) on a concrete cache hit. -/
theorem query_cached_iff_cache_hit_witness :
    (query true (some storedResult) envOk "q" "id" none).strategy_used
      ≠ .cache ∧
    ((query true (some storedResult) envOk "q" "id" none).cached = true ↔
      (true = true ∧ (none : Option RoutingStrategy) = none ∧
        (some storedResult) ≠ none)) :=
  query_cached_iff_cache_hit true (some storedResult) envOk "q" "id" none
    (fun r hr => by
      cases hr
      simp [storedResult])

/-- C2: the router maps complexity `simple` to `classic_rag`; `moderate` to
`classic_rag` when the classifier confidence exceeds 0.7 and to `hybrid`
otherwise; `complex` and `multi_hop` to `agentic_rag`; and an empty query
(analysed as `simple`) is routed to `classic_rag`. -/
theorem router_strategy_selection (conf : ℚ) :
    determineStrategy .simple conf = .classic_rag ∧
    (conf > 7/10 → determineStrategy .moderate conf = .classic_rag) ∧
    (¬ conf > 7/10 → determineStrategy .moderate conf = .hybrid) ∧
    determineStrategy .complex conf = .agentic_rag ∧
    determineStrategy .multi_hop conf = .agentic_rag ∧
    (routeQuery (analyzeQuery "" "qid") none).strategy = .classic_rag := by
  have hc : analyzeComplexity "" = .simple := by
    norm_num [analyzeComplexity, complexityScore,
      show wordCount "" = 0 from rfl, min_def]
  refine ⟨rfl, fun h => by simp [determineStrategy, h],
    fun h => by simp [determineStrategy, h], rfl, rfl, ?_⟩
  simp [routeQuery, route, analyzeQuery, hc, determineStrategy]

/-- Witness for C2 at concrete confidences 0.8 and 0.6. -/
theorem router_strategy_selection_witness :
    determineStrategy .moderate (4/5) = .classic_rag ∧
    determineStrategy .moderate (3/5) = .hybrid :=
  ⟨(router_strategy_selection (4/5)).2.1 (by norm_num),
   (router_strategy_selection (3/5)).2.2.1 (by norm_num)⟩

/-- C3 counterexample: an error raised while executing a forced agentic
strategy is surfaced with `strategy_used = classic_rag` (not the attempted
`agentic_rag`) and with `fallback_used = true` even though no fallback was
attempted — refuting "`fallback_used` set truthfully and `strategy_used`
reflecting the last attempted strategy". -/
theorem error_result_ignores_attempted_strategy :
    (query true none envAgenticDown "q" "id" (some .agentic_rag)).error
      = some "agentic boom" ∧
    (query true none envAgenticDown "q" "id" (some .agentic_rag)).strategy_used
      = .classic_rag ∧
    (query true none envAgenticDown "q" "id" (some .agentic_rag)).strategy_used
      ≠ .agentic_rag ∧
    (query true none envAgenticDown "q" "id" (some .agentic_rag)).fallback_used
      = true := by
  refine ⟨?_, ?_, ?_, ?_⟩ <;>
    simp [query, queryCore, routeQuery, executeQuery, runAgentic,
      envAgenticDown, Except.map, createErrorResult]

/-- C3 (amended): every surfaced error is returned as a `QueryResult` with
`error` populated and a short apologetic `answer`, but `strategy_used` is
always `classic_rag` and `fallback_used` is always `true`, regardless of
which strategy was attempted and although no fallback is ever attempted. -/
theorem error_result_shape (qid e : String) (env : PipelineEnv) (q : String)
    (ha : env.agentic = .error e) :
    (createErrorResult qid e).error = some e ∧
    (createErrorResult qid e).answer =
      "Извините, произошла ошибка при обработке вашего запроса." ∧
    (createErrorResult qid e).strategy_used = .classic_rag ∧
    (createErrorResult qid e).fallback_used = true ∧
    query true none env q qid (some .agentic_rag) = createErrorResult qid e := by
  refine ⟨rfl, rfl, rfl, rfl, ?_⟩
  simp [query, queryCore, routeQuery, executeQuery, runAgentic, ha, Except.map]

/-- Witness for C3 (amended) on a concrete agentic failure. -/
theorem error_result_shape_witness :
    query true none envAgenticDown "q" "id" (some .agentic_rag) =
      createErrorResult "id" "agentic boom" :=
  (error_result_shape "id" "agentic boom" envAgenticDown "q" rfl).2.2.2.2

/-- C4 counterexample: a `RoutingDecision` produced for a forced strategy has
an empty `fallback_strategies` list — refuting the claim that every produced
decision (including forced ones) carries the fixed non-empty chain. -/
theorem forced_decision_has_no_fallbacks :
    (routeQuery (analyzeQuery "q" "id")
      (some .classic_rag)).fallback_strategies = [] ∧
    (routeQuery (analyzeQuery "q" "id") (some .classic_rag)).strategy
      = .classic_rag :=
  ⟨rfl, rfl⟩

/-- C4 (amended): decisions produced by the router (no forced strategy)
carry the fixed fallback chains — `agentic → [hybrid, classic]`,
`hybrid → [classic, agentic]`, `classic → [hybrid, agentic]` — with
`strategy ∉ fallback_strategies` and a non-empty list; decisions produced
for a forced strategy have an empty `fallback_strategies` list. -/
theorem router_fallback_chains (m : QueryMetadata) (f : RoutingStrategy) :
    getFallbackStrategies .agentic_rag = [.hybrid, .classic_rag] ∧
    getFallbackStrategies .hybrid = [.classic_rag, .agentic_rag] ∧
    getFallbackStrategies .classic_rag = [.hybrid, .agentic_rag] ∧
    (route m).strategy ∉ (route m).fallback_strategies ∧
    (route m).fallback_strategies ≠ [] ∧
    (routeQuery m (some f)).fallback_strategies = [] := by
  have h1 : (route m).strategy
      = determineStrategy m.complexity (classify m).confidence := rfl
  have h2 : (route m).fallback_strategies
      = getFallbackStrategies
          (determineStrategy m.complexity (classify m).confidence) := rfl
  refine ⟨rfl, rfl, rfl, ?_, ?_, rfl⟩
  · rw [h1, h2]
    cases determineStrategy m.complexity (classify m).confidence <;>
      simp [getFallbackStrategies]
  · rw [h2]
    cases determineStrategy m.complexity (classify m).confidence <;>
      simp [getFallbackStrategies]

/-- C5 counterexample: when the classic pipeline fails and the agentic one
succeeds, hybrid execution does not return the surviving result — the
exception propagates and `query` surfaces the generic error result, whose
answer is the apology rather than the surviving pipeline's answer. -/
theorem hybrid_single_failure_drops_survivor :
    mergeHybrid (.error "classic boom") (.ok storedResult)
      = .error "classic boom" ∧
    (query true none envClassicDown "q" "id" (some .hybrid)).error
      = some "classic boom" ∧
    (query true none envClassicDown "q" "id" (some .hybrid)).answer
      ≠ "agentic answer" := by
  refine ⟨rfl, ?_, ?_⟩ <;>
    simp [query, queryCore, routeQuery, executeQuery, execHybrid, runClassic,
      runAgentic, mergeHybrid, envClassicDown, Except.map, createErrorResult]

/-- C5 (amended): if either pipeline fails during hybrid execution, the
failure propagates (when exactly one fails, with that pipeline's error) —
the surviving pipeline's result is discarded, and `query` returns the
generic error result instead. -/
theorem hybrid_failure_propagates (e : String) (r : QueryResult)
    (env : PipelineEnv) (q qid : String) (d : ProcDict) :
    mergeHybrid (.error e) (.ok r) = .error e ∧
    mergeHybrid (.ok r) (.error e) = .error e ∧
    (env.classic = .error e → env.agentic = .ok d →
      query true none env q qid (some .hybrid) = createErrorResult qid e) := by
  refine ⟨rfl, rfl, fun hc ha => ?_⟩
  simp [query, queryCore, routeQuery, executeQuery, execHybrid, runClassic,
    runAgentic, mergeHybrid, hc, ha, Except.map]

/-- Witness for C5 (amended) on a concrete classic-pipeline failure. -/
theorem hybrid_failure_propagates_witness :
    query true none envClassicDown "q" "id" (some .hybrid) =
      createErrorResult "id" "classic boom" :=
  (hybrid_failure_propagates "classic boom" storedResult envClassicDown
    "q" "id" { answer := "agentic answer" }).2.2 rfl rfl

/-- C6: when both pipelines succeed, hybrid execution returns the agentic
result exactly when its `confidence_score` is strictly higher, the classic
result otherwise (so ties go to classic), and overwrites `strategy_used`
with `hybrid`. -/
theorem hybrid_merge_picks_higher_confidence (c a : QueryResult) :
    (a.confidence_score > c.confidence_score →
      mergeHybrid (.ok c) (.ok a) = .ok { a with strategy_used := .hybrid }) ∧
    (a.confidence_score ≤ c.confidence_score →
      mergeHybrid (.ok c) (.ok a) = .ok { c with strategy_used := .hybrid }) := by
  constructor
  · intro h
    simp [mergeHybrid, h]
  · intro h
    have h' : ¬ a.confidence_score > c.confidence_score := not_lt.mpr h
    simp [mergeHybrid, h']

/-- Witness for C6: a strict agentic win, a classic win, and an exact tie
resolved in favour of the classic result. -/
theorem hybrid_merge_picks_higher_confidence_witness :
    mergeHybrid (.ok resultLow) (.ok resultHigh)
      = .ok { resultHigh with strategy_used := .hybrid } ∧
    mergeHybrid (.ok resultHigh) (.ok resultLow)
      = .ok { resultHigh with strategy_used := .hybrid } ∧
    mergeHybrid (.ok resultLow) (.ok resultTie)
      = .ok { resultLow with strategy_used := .hybrid } :=
  ⟨(hybrid_merge_picks_higher_confidence resultLow resultHigh).1
      (by norm_num [resultLow, resultHigh, storedResult]),
   (hybrid_merge_picks_higher_confidence resultHigh resultLow).2
      (by norm_num [resultLow, resultHigh, storedResult]),
   (hybrid_merge_picks_higher_confidence resultLow resultTie).2
      (by norm_num [resultLow, resultTie, storedResult])⟩

/-- C7: the heuristic classifier agrees on every query with the spec's
reference definition — simple patterns first (0.85), then complex patterns
(`multi_hop` at ≥ 2 multi-hop keywords, else `complex`, 0.75), then
word-count buckets followed by the question-mark (×0.9) and enumeration
(×0.95) adjustments in that order. -/
theorem heuristic_classify_matches_reference (q : String) :
    heuristicClassify q = heuristicClassifyRef q := by
  by_cases hs : matchesAny simplePatterns q = true
  · simp [heuristicClassify, heuristicClassifyRef, hs]
  · by_cases hc : matchesAny complexPatterns q = true
    · by_cases hm : 2 ≤ multiHopCount q <;>
        simp [heuristicClassify, heuristicClassifyRef, hs, hc, hm]
    · by_cases hq : countChar q '?' > 1 <;>
        by_cases he : hasEnumeration q = true <;>
        by_cases h1 : wordCount q < 10 <;>
        by_cases h2 : wordCount q < 30 <;>
        by_cases h3 : wordCount q < 50 <;>
        simp [heuristicClassify, heuristicClassifyRef, refWordBucket,
          refQuestionAdjust, refEnumAdjust, hs, hc, hq, he, h1, h2, h3]

/-- C8 counterexample: with `complexity_threshold_simple` configured to 0.5,
a 20-word query has `complexity_score = 0.4 < 0.5` yet is classified
`moderate` — `_analyze_query` uses hard-coded cut points and ignores the
configured thresholds. -/
theorem analyze_ignores_configured_thresholds :
    complexityScore q20 < customSettings.complexity_threshold_simple ∧
    analyzeComplexity q20 ≠ .simple := by
  have hw : wordCount q20 = 20 := rfl
  have hs : complexityScore q20 = 2/5 := by
    norm_num [complexityScore, hw, min_def]
  constructor
  · rw [hs]
    norm_num [customSettings]
  · have hm : analyzeComplexity q20 = .moderate := by
      norm_num [analyzeComplexity, hs]
    simp [hm]

/-- C8 (amended): the analyzer's invariant holds for the default thresholds
(0.3, 0.7): `complexity_score < 0.3` implies `simple`, and
`complexity_score ≥ 0.7` implies `complex` or `multi_hop`; the analyzer's
cut points are hard-coded, so other configured values are not respected. -/
theorem analyze_respects_default_thresholds (q : String) :
    (complexityScore q < defaultSettings.complexity_threshold_simple →
      analyzeComplexity q = .simple) ∧
    (defaultSettings.complexity_threshold_complex ≤ complexityScore q →
      analyzeComplexity q = .complex ∨ analyzeComplexity q = .multi_hop) := by
  constructor
  · intro h
    have h' : complexityScore q < 3/10 := by simpa [defaultSettings] using h
    simp [analyzeComplexity, h']
  · intro h
    have h' : (7:ℚ)/10 ≤ complexityScore q := by
      simpa [defaultSettings] using h
    have h1 : ¬ complexityScore q < 3/10 := by linarith
    have h2 : ¬ complexityScore q < 3/5 := by linarith
    by_cases h3 : complexityScore q < 4/5 <;>
      simp [analyzeComplexity, h1, h2, h3]

/-- Witness for C8 (amended) at a 2-word and a 40-word query. -/
theorem analyze_respects_default_thresholds_witness :
    analyzeComplexity "a b" = .simple ∧
    (analyzeComplexity q40 = .complex ∨ analyzeComplexity q40 = .multi_hop) :=
  ⟨(analyze_respects_default_thresholds "a b").1
      (by norm_num [complexityScore, defaultSettings,
        show wordCount "a b" = 2 from rfl, min_def]),
   (analyze_respects_default_thresholds q40).2
      (by norm_num [complexityScore, defaultSettings,
        show wordCount q40 = 40 from rfl, min_def])⟩

/-- C9 counterexample: an empty query is not rejected — no `InvalidQuery`
error exists, the query is analysed, routed to the classic pipeline, and
that pipeline's answer is returned with `error = None`. -/
theorem empty_query_is_processed :
    (query true none envOk "" "id" none).error = none ∧
    (query true none envOk "" "id" none).strategy_used = .classic_rag ∧
    (query true none envOk "" "id" none).answer = "classic answer" := by
  have hc : analyzeComplexity "" = .simple := by
    norm_num [analyzeComplexity, complexityScore,
      show wordCount "" = 0 from rfl, min_def]
  refine ⟨?_, ?_, ?_⟩ <;>
    simp [query, queryCore, routeQuery, route, executeQuery, runClassic,
      envOk, execClassic, Except.map, analyzeQuery, hc, determineStrategy]

/-- C9 (amended): `HybridRAG.query` performs no input validation: for every
query text (empty or arbitrarily large), when both pipeline backends
succeed the returned result carries no error — there is no `InvalidQuery`
path. -/
theorem query_has_no_input_validation (env : PipelineEnv) (q qid : String)
    (dc da : ProcDict) (hc : env.classic = .ok dc) (ha : env.agentic = .ok da) :
    (query true none env q qid none).error = none := by
  obtain ⟨r, hr, he⟩ := executeQuery_both_ok (analyzeQuery q qid) hc ha
    (routeQuery (analyzeQuery q qid) none)
    (determineStrategy_ne_cache _ _)
  simp [query, queryCore, hr, he]

/-- Witness for C9 (amended) on the empty query with healthy pipelines. -/
theorem query_has_no_input_validation_witness :
    (query true none envOk "" "id" none).error = none :=
  query_has_no_input_validation envOk "" "id"
    { answer := "classic answer" } { answer := "agentic answer" } rfl rfl

/-- C10: a forced strategy (hence every `simple_query` / `complex_query`
call) skips the cache lookup entirely — the result is identical to the call
with no cache entry, even when a fresh entry exists — and the returned
result has `cached = false`. -/
theorem forced_strategy_skips_cache (ce : Bool) (entry : Option QueryResult)
    (env : PipelineEnv) (q qid : String) (s : RoutingStrategy) :
    query ce entry env q qid (some s) = query ce none env q qid (some s) ∧
    (query ce entry env q qid (some s)).cached = false ∧
    simpleQuery ce entry env q qid
      = query ce none env q qid (some .classic_rag) ∧
    (simpleQuery ce entry env q qid).cached = false ∧
    complexQuery ce entry env q qid
      = query ce none env q qid (some .agentic_rag) ∧
    (complexQuery ce entry env q qid).cached = false := by
  have hq : ∀ (entry' : Option QueryResult) (s' : RoutingStrategy),
      query ce entry' env q qid (some s') = queryCore env q qid (some s') := by
    intro entry' s'
    simp [query]
  refine ⟨(hq entry s).trans (hq none s).symm, ?_,
    (hq entry .classic_rag).trans (hq none .classic_rag).symm, ?_,
    (hq entry .agentic_rag).trans (hq none .agentic_rag).symm, ?_⟩
  · rw [hq entry s]
    exact (queryCore_fields env q qid (some s)).1
  · show (query ce entry env q qid (some .classic_rag)).cached = false
    rw [hq entry .classic_rag]
    exact (queryCore_fields env q qid (some .classic_rag)).1
  · show (query ce entry env q qid (some .agentic_rag)).cached = false
    rw [hq entry .agentic_rag]
    exact (queryCore_fields env q qid (some .agentic_rag)).1

end HybridRag
